import Mathlib

/-!
Shallow embedding of `src/server.js`: a relay between an Arduino on a
serial port, WebSocket clients, and a Firestore `doorState/current`
document.  Each event handler of the source is embedded as a pure Lean
function from its inputs (and, where the source registers a write
callback, the outcome of that write) to an `Effect` record collecting
every observable side effect the handler performs.
-/

namespace Relay

/-- A Firestore document write, as performed by `doorStateDocRef.set({state: ...})`.
Only the `state` field exists in the source. -/
structure FsDoc where
  state : String
deriving Repr, DecidableEq

/-- A connected WebSocket client as seen by the broadcast loop:
its identity and its `readyState` (the source compares against
`WebSocket.OPEN`). -/
structure WsClient where
  id : Nat
  readyState : Nat
deriving Repr, DecidableEq

/-- `WebSocket.OPEN` is the numeric ready-state constant 1. -/
def WS_OPEN : Nat := 1

/-- The whitespace characters stripped by JavaScript's
`String.prototype.trim` (the ASCII ones; trim also strips a few
Unicode space characters that never occur in this system's
vocabulary). -/
def jsWhitespace (c : Char) : Bool :=
  c = ' ' || c = '\t' || c = '\n' || c = '\r' || c = '\x0b' || c = '\x0c'

/-- Character-list form of JavaScript `trim`: drop leading and
trailing whitespace, keep the interior intact. -/
def jsTrimChars (cs : List Char) : List Char :=
  ((cs.dropWhile jsWhitespace).reverse.dropWhile jsWhitespace).reverse

/-- JavaScript `String.prototype.trim`, as an executable function on
Lean strings. -/
def jsTrim (s : String) : String := String.mk (jsTrimChars s.toList)

/-- JavaScript `String.prototype.startsWith`. -/
def jsStartsWith (s pre : String) : Bool := pre.toList.isPrefixOf s.toList

/-- All observable side effects of one handler invocation:
bytes written to the serial port (`port.write`), Firestore document
writes (`doorStateDocRef.set`), messages sent to individual WebSocket
clients (`ws.send`), invocations of the broadcast loop, door-state
change notifications reaching the command-dispatch code, console
output, and any process exit requested. -/
structure Effect where
  serialWrites : List String
  firestoreWrites : List FsDoc
  clientSends : List (Nat × String)
  broadcasts : List String
  emittedChanges : List String
  logs : List String
  exitCode : Option Nat
deriving Repr, DecidableEq

/-- The effect of a handler that does nothing. -/
def emptyEffect : Effect := ⟨[], [], [], [], [], [], none⟩

/-- The `console.error` line produced by a `port.write` callback:
nothing on success, one line joining the fixed tag and the error
message on failure. -/
def errLog (tag : String) : Option String → List String
  | none => []
  | some e => [tag ++ " " ++ e]

/-- Embedding of the `ws.on("message")` handler (src/server.js lines
71-98).  `rawMsg` is the inbound frame, `werr` the outcome handed to
the `port.write` callback of the single write the handler issues. -/
def handleClientMessage (rawMsg : String) (werr : Option String) : Effect :=
  let message := jsTrim rawMsg
  if jsStartsWith message "PASSCODE:" then
    ⟨[message ++ "\n"], [], [], [], [],
      ["⇒ To Arduino: " ++ message] ++ errLog "Error writing PASSCODE to serial:" werr, none⟩
  else if message = "CLOSE" then
    ⟨["CLOSE\n"], [], [], [], [],
      ["⇒ To Arduino: " ++ message] ++ errLog "Error writing CLOSE to serial:" werr, none⟩
  else if message = "RESET" then
    ⟨["RESET\n"], [], [], [], [],
      ["⇒ To Arduino: " ++ message] ++ errLog "Error writing RESET to serial:" werr, none⟩
  else
    ⟨[message ++ "\n"], [], [], [], [],
      ["⇒ To Arduino: " ++ message] ++ errLog "Error writing message to serial:" werr, none⟩

/-- The four branches of the client-message dispatch, in source order. -/
inductive MsgClass where
  | passcode
  | closeCmd
  | resetCmd
  | freeform
deriving Repr, DecidableEq

/-- Classification of a (trimmed) client message by the ordered
if/else-if chain of the `ws.on("message")` handler. -/
def classify (message : String) : MsgClass :=
  if jsStartsWith message "PASSCODE:" then MsgClass.passcode
  else if message = "CLOSE" then MsgClass.closeCmd
  else if message = "RESET" then MsgClass.resetCmd
  else MsgClass.freeform

/-- The text the handler forwards for each branch: the message itself
for the PASSCODE and free-form branches, the literal token otherwise. -/
def forwardedText (message : String) : String :=
  match classify message with
  | MsgClass.closeCmd => "CLOSE"
  | MsgClass.resetCmd => "RESET"
  | _ => message

/-- The `wss.clients.forEach` loop of the `parser.on("data")` handler:
each client whose `readyState` equals `WebSocket.OPEN` receives `msg`;
every other client is skipped and iteration continues. -/
def broadcastTo (msg : String) : List WsClient → List (Nat × String)
  | [] => []
  | c :: rest =>
    if c.readyState = WS_OPEN then (c.id, msg) :: broadcastTo msg rest
    else broadcastTo msg rest

/-- Embedding of the `parser.on("data")` handler (src/server.js lines
57-65): trim the line, log it, and run the broadcast loop once. -/
def handleDeviceLine (line : String) (clients : List WsClient) : Effect :=
  let msg := jsTrim line
  ⟨[], [], broadcastTo msg clients, [msg], [], ["⇐ From Arduino: " ++ msg], none⟩

/-- The data of a Firestore snapshot: the `state` field, `none` when
the field is absent (undefined/null in the source's falsy test). -/
structure SnapData where
  state : Option String
deriving Repr, DecidableEq

/-- A Firestore document snapshot: `docExists` models
`docSnapshot.exists`, `data` models `docSnapshot.data()` (which can be
undefined). -/
structure DocSnapshot where
  docExists : Bool
  data : Option SnapData
deriving Repr, DecidableEq

/-- Embedding of the `doorStateDocRef.onSnapshot` handler
(src/server.js lines 110-134).  `werr` is the outcome handed to the
`port.write` callback when a command write is issued. -/
def handleSnapshot (snap : DocSnapshot) (werr : Option String) : Effect :=
  if !snap.docExists then
    ⟨[], [FsDoc.mk "closed"], [], [], [], [], none⟩
  else
    match snap.data with
    | none => emptyEffect
    | some d =>
      match d.state with
      | none => emptyEffect
      | some s =>
        if s = "" then emptyEffect
        else
          let newState := s
          if newState = "open" then
            ⟨["UNLOCK\n"], [], [], [], [newState],
              ["Firestore doorState changed to: " ++ newState] ++
                errLog "Error writing UNLOCK to serial:" werr, none⟩
          else if newState = "closed" then
            ⟨["LOCK\n"], [], [], [], [newState],
              ["Firestore doorState changed to: " ++ newState] ++
                errLog "Error writing LOCK to serial:" werr, none⟩
          else
            ⟨[], [], [], [], [newState],
              ["Firestore doorState changed to: " ++ newState], none⟩

/-- Embedding of the `new SerialPort` open callback (src/server.js
lines 34-43): on error, log and `process.exit(1)`; on success, log. -/
def serialOpenCallback (err : Option String) : Effect :=
  match err with
  | some e =>
    ⟨[], [], [], [], [], ["Error opening serial port: " ++ e], some 1⟩
  | none =>
    ⟨[], [], [], [], [], ["Serial port open on COM6 @ 9600 baud"], none⟩

/-- Sequential composition of two handler invocations' effects. -/
def Effect.seq (e1 e2 : Effect) : Effect :=
  ⟨e1.serialWrites ++ e2.serialWrites,
   e1.firestoreWrites ++ e2.firestoreWrites,
   e1.clientSends ++ e2.clientSends,
   e1.broadcasts ++ e2.broadcasts,
   e1.emittedChanges ++ e2.emittedChanges,
   e1.logs ++ e2.logs,
   match e1.exitCode with
   | some c => some c
   | none => e2.exitCode⟩

/-- The cumulative effect of a sequence of snapshot deliveries, each
handled (successfully writing) by the `onSnapshot` handler in order. -/
def processSnapshots : List DocSnapshot → Effect
  | [] => emptyEffect
  | s :: rest => Effect.seq (handleSnapshot s none) (processSnapshots rest)

end Relay

namespace Relay

/-- C1: for every inbound client message, after trimming, the
classification is total and exactly one branch fires (the four branch
conditions are mutually exclusive and exhaustive in source order);
exactly one device write is issued, and the forwarded text is the
trimmed message itself in the PASSCODE and free-form branches and the
literal token in the CLOSE and RESET branches. -/
theorem client_message_one_branch_one_send (raw : String) (werr : Option String) :
    (handleClientMessage raw werr).serialWrites.length = 1 ∧
    (handleClientMessage raw werr).serialWrites = [forwardedText (jsTrim raw) ++ "\n"] ∧
    (classify (jsTrim raw) = MsgClass.passcode ↔ jsStartsWith (jsTrim raw) "PASSCODE:" = true) ∧
    (classify (jsTrim raw) = MsgClass.closeCmd ↔
      (jsStartsWith (jsTrim raw) "PASSCODE:" = false ∧ jsTrim raw = "CLOSE")) ∧
    (classify (jsTrim raw) = MsgClass.resetCmd ↔
      (jsStartsWith (jsTrim raw) "PASSCODE:" = false ∧ jsTrim raw = "RESET")) ∧
    (classify (jsTrim raw) = MsgClass.freeform ↔
      (jsStartsWith (jsTrim raw) "PASSCODE:" = false ∧ jsTrim raw ≠ "CLOSE" ∧ jsTrim raw ≠ "RESET")) := by
  unfold handleClientMessage forwardedText classify
  split_ifs <;> simp_all

/-- C10: in every branch the bytes written to the device are exactly
the trimmed message followed by one newline; hence classification is
by the trimmed text (a padded "CLOSE" still yields the literal
command), a message that trims to empty yields a bare newline write,
and interior newlines are forwarded intact. -/
theorem client_message_bytes_written (raw : String) (werr : Option String) :
    (handleClientMessage raw werr).serialWrites = [jsTrim raw ++ "\n"] ∧
    (handleClientMessage "  CLOSE \n" none).serialWrites = ["CLOSE\n"] ∧
    (handleClientMessage " \t " none).serialWrites = ["\n"] ∧
    (handleClientMessage "A\nB" none).serialWrites = ["A\nB\n"] := by
  refine ⟨?_, by decide, by decide, by decide⟩
  simp only [handleClientMessage]
  split_ifs <;> simp_all

/-- C2: for a snapshot whose document exists and whose `state` field
is populated with value `s`, the handler sends exactly one `UNLOCK`
line when `s = "open"`, exactly one `LOCK` line when `s = "closed"`,
and no device line for any other value. -/
theorem door_state_command_mapping (s : String) (d : Option String) (hpop : s ≠ "") :
    (handleSnapshot ⟨true, some ⟨some s⟩⟩ d).serialWrites =
      (if s = "open" then ["UNLOCK\n"] else if s = "closed" then ["LOCK\n"] else []) ∧
    (handleSnapshot ⟨true, some ⟨some s⟩⟩ d).firestoreWrites = [] := by
  unfold handleSnapshot
  split_ifs <;> simp_all

/-- Witness for C2 at the concrete populated value "open". -/
theorem door_state_command_mapping_witness :
    ("open" : String) ≠ "" ∧
    ((handleSnapshot ⟨true, some ⟨some "open"⟩⟩ none).serialWrites =
      (if ("open" : String) = "open" then ["UNLOCK\n"]
        else if ("open" : String) = "closed" then ["LOCK\n"] else []) ∧
     (handleSnapshot ⟨true, some ⟨some "open"⟩⟩ none).firestoreWrites = []) :=
  ⟨by decide, door_state_command_mapping "open" none (by decide)⟩

/-- The broadcast loop delivers to exactly the clients whose
`readyState` is `WebSocket.OPEN`, in order. -/
theorem broadcastTo_eq_filter_map (msg : String) (cs : List WsClient) :
    broadcastTo msg cs =
      (cs.filter (fun c => c.readyState == WS_OPEN)).map (fun c => (c.id, msg)) := by
  induction cs with
  | nil => rfl
  | cons c rest ih =>
    by_cases h : c.readyState = WS_OPEN <;>
      simp [broadcastTo, List.filter_cons, h, ih]

/-- One client in the middle of the iteration contributes its own
delivery (or nothing, if not open) and leaves the deliveries of the
clients before and after it unchanged. -/
theorem broadcastTo_middle (msg : String) (xs ys : List WsClient) (bad : WsClient) :
    broadcastTo msg (xs ++ bad :: ys) =
      broadcastTo msg xs ++
        (if bad.readyState = WS_OPEN then [(bad.id, msg)] else []) ++
        broadcastTo msg ys := by
  induction xs with
  | nil => by_cases h : bad.readyState = WS_OPEN <;> simp [broadcastTo, h]
  | cons c rest ih =>
    by_cases h : c.readyState = WS_OPEN <;> simp [broadcastTo, h, ih]

/-- C3: every device line is broadcast exactly once, trimmed but
otherwise unmodified; it is delivered to exactly the clients whose
`readyState` is open at broadcast time; and a non-open client anywhere
in the iteration neither receives the line nor disturbs delivery to
the clients before or after it. -/
theorem device_line_broadcast_delivery (line : String) (clients : List WsClient) :
    (handleDeviceLine line clients).broadcasts = [jsTrim line] ∧
    (handleDeviceLine line clients).clientSends =
      (clients.filter (fun c => c.readyState == WS_OPEN)).map
        (fun c => (c.id, jsTrim line)) ∧
    ∀ xs ys bad, broadcastTo (jsTrim line) (xs ++ bad :: ys) =
      broadcastTo (jsTrim line) xs ++
        (if bad.readyState = WS_OPEN then [(bad.id, jsTrim line)] else []) ++
        broadcastTo (jsTrim line) ys :=
  ⟨rfl, broadcastTo_eq_filter_map (jsTrim line) clients,
    fun xs ys bad => broadcastTo_middle (jsTrim line) xs ys bad⟩

/-- The serial writes of a sequence of snapshot deliveries are the
concatenation, in order, of the writes each delivery produces on its
own: the handler keeps no state between deliveries. -/
theorem processSnapshots_serialWrites (snaps : List DocSnapshot) :
    (processSnapshots snaps).serialWrites =
      snaps.flatMap (fun t => (handleSnapshot t none).serialWrites) := by
  induction snaps with
  | nil => rfl
  | cons s rest ih => simp [processSnapshots, Effect.seq, ih]

/-- C4: the door-state handler performs no de-duplication: each
delivery contributes its own command regardless of the deliveries
before it, and delivering `{state:"open"}` twice in a row sends
`UNLOCK` to the device twice. -/
theorem snapshot_no_dedup (snaps : List DocSnapshot) (s : DocSnapshot) :
    (processSnapshots (s :: snaps)).serialWrites =
      (handleSnapshot s none).serialWrites ++ (processSnapshots snaps).serialWrites ∧
    (processSnapshots snaps).serialWrites =
      snaps.flatMap (fun t => (handleSnapshot t none).serialWrites) ∧
    (processSnapshots
        [⟨true, some ⟨some "open"⟩⟩, ⟨true, some ⟨some "open"⟩⟩]).serialWrites =
      ["UNLOCK\n", "UNLOCK\n"] :=
  ⟨rfl, processSnapshots_serialWrites snaps, by decide⟩

/-- C5: when the document does not exist, the handler writes the
default document `{state: "closed"}` back to the store and returns
without emitting a change and without any device command. -/
theorem absent_document_seeds_default (d : Option SnapData) (werr : Option String) :
    (handleSnapshot ⟨false, d⟩ werr).firestoreWrites = [FsDoc.mk "closed"] ∧
    (handleSnapshot ⟨false, d⟩ werr).serialWrites = [] ∧
    (handleSnapshot ⟨false, d⟩ werr).emittedChanges = [] :=
  ⟨rfl, rfl, rfl⟩

/-- C6: when the document exists but its data or `state` field is
absent or empty, the snapshot is ignored entirely: the handler's
effect is the empty effect (no emission, no device write, no
Firestore write, not even a log line). -/
theorem missing_field_ignored (d : Option SnapData) (werr : Option String)
    (h : d = none ∨ d = some ⟨none⟩ ∨ d = some ⟨some ""⟩) :
    handleSnapshot ⟨true, d⟩ werr = emptyEffect := by
  rcases h with h | h | h <;> subst h <;> rfl

/-- Witness for C6 with the `state` field empty. -/
theorem missing_field_ignored_witness :
    ((some ⟨some ""⟩ : Option SnapData) = none ∨
      (some ⟨some ""⟩ : Option SnapData) = some ⟨none⟩ ∨
      (some ⟨some ""⟩ : Option SnapData) = some ⟨some ""⟩) ∧
    handleSnapshot ⟨true, some ⟨some ""⟩⟩ none = emptyEffect :=
  ⟨Or.inr (Or.inr rfl), missing_field_ignored (some ⟨some ""⟩) none (Or.inr (Or.inr rfl))⟩

/-- C7: a serial-write failure in the client-message handler is
swallowed: the same single write is issued as in the success case (no
retry), the error is appended to the log, nothing is sent back to any
client, and no process exit is requested. -/
theorem write_failure_swallowed (raw : String) (e : String) :
    (handleClientMessage raw (some e)).serialWrites =
      (handleClientMessage raw none).serialWrites ∧
    (handleClientMessage raw (some e)).serialWrites.length = 1 ∧
    (∃ tag, (handleClientMessage raw (some e)).logs =
      (handleClientMessage raw none).logs ++ [tag ++ " " ++ e]) ∧
    (handleClientMessage raw (some e)).clientSends = [] ∧
    (handleClientMessage raw (some e)).exitCode = none := by
  simp only [handleClientMessage, errLog]
  split_ifs
  · exact ⟨rfl, rfl, ⟨"Error writing PASSCODE to serial:", rfl⟩, rfl, rfl⟩
  · exact ⟨rfl, rfl, ⟨"Error writing CLOSE to serial:", rfl⟩, rfl, rfl⟩
  · exact ⟨rfl, rfl, ⟨"Error writing RESET to serial:", rfl⟩, rfl, rfl⟩
  · exact ⟨rfl, rfl, ⟨"Error writing message to serial:", rfl⟩, rfl, rfl⟩

/-- C8: if the serial link cannot be opened at startup the process
exits with status 1, a non-zero status; a successful open exits
nowhere. -/
theorem open_failure_fatal (e : String) :
    (serialOpenCallback (some e)).exitCode = some 1 ∧
    (1 : Nat) ≠ 0 ∧
    (serialOpenCallback none).exitCode = none :=
  ⟨rfl, by decide, rfl⟩

/-- C9: no handler ever writes to the remote door-state document
except the snapshot handler's conditional default seed when the
document is absent: the client-message handler, the device-line
handler and the serial-open callback perform no Firestore write, and
the snapshot handler writes exactly the default `{state: "closed"}`
when the document is absent and nothing otherwise. -/
theorem no_document_write_except_seed (raw line : String) (werr : Option String)
    (clients : List WsClient) (snap : DocSnapshot) :
    (handleClientMessage raw werr).firestoreWrites = [] ∧
    (handleDeviceLine line clients).firestoreWrites = [] ∧
    (serialOpenCallback werr).firestoreWrites = [] ∧
    (handleSnapshot snap werr).firestoreWrites =
      (if snap.docExists then [] else [FsDoc.mk "closed"]) := by
  refine ⟨?_, rfl, ?_, ?_⟩
  · simp only [handleClientMessage]
    split_ifs <;> rfl
  · cases werr <;> rfl
  · rcases snap with ⟨ex, d⟩
    cases ex
    · rfl
    · cases d with
      | none => rfl
      | some dd =>
        rcases dd with ⟨st⟩
        cases st with
        | none => rfl
        | some s =>
          simp only [handleSnapshot]
          split_ifs <;> simp_all [emptyEffect]

end Relay
